import Mathlib

/-!
Verification of the claims-aggregation and reporting pipeline of the
FRA Atlas MVP (src/js/components/dashboard.js and src/js/app.js),
as a shallow embedding in Lean.

JavaScript values that can appear in a GeoJSON feature's numeric
property slots are modelled by `JSVal` (undefined/missing, a number, or
a string).  JS numbers are modelled by rationals; the binary-float
rendering of non-integer numbers and NaN payloads are outside the scope
of every claim and are noted where approximated.
-/

namespace FraAtlas

/-- A JavaScript value sitting in a feature property slot:
missing/`undefined`, a number (modelled as a rational), or a string. -/
inductive JSVal where
  | undef : JSVal
  | num (q : ℚ) : JSVal
  | str (s : String) : JSVal
deriving DecidableEq, Repr

/-- JS truthiness: `undefined` is falsy, a number is falsy iff it is 0,
a string is falsy iff it is empty. -/
def JSVal.truthy : JSVal → Bool
  | .undef => false
  | .num q => q != 0
  | .str s => s != ""

/-- `v || 0` — the default applied by `updateFromData` to
`props.claimant_families` and `props.area_hectares`
(dashboard.js lines 41-42). -/
def orZero (v : JSVal) : JSVal :=
  if v.truthy then v else .num 0

/-- Rendering of a JS number as a string.  Integers render exactly as
in JS (`"17"`, `"-3"`); the decimal rendering of a non-integer float is
approximated by the rational's `toString`, which no claim exercises. -/
def numToStr (q : ℚ) : String :=
  if q.den = 1 then toString q.num else toString q

/-- JS `String(v)` conversion as used implicitly by `+` when one
operand is a string. -/
def JSVal.toStr : JSVal → String
  | .undef => "undefined"
  | .num q => numToStr q
  | .str s => s

/-- JS `+`: numeric addition when both operands are numbers, otherwise
string concatenation of the converted operands.  This is the `+=` of
the `totalFamilies`/`totalArea` accumulators (dashboard.js lines 44-45). -/
def jsAdd (a b : JSVal) : JSVal :=
  match a, b with
  | .num x, .num y => .num (x + y)
  | _, _ => .str (a.toStr ++ b.toStr)

/-- Whether `v.toFixed(1)` throws: `toFixed` exists only on numbers, so
it throws a TypeError on any non-number. -/
def toFixedThrows : JSVal → Bool
  | .num _ => false
  | _ => true

/-! ### Substring search (JS `String.prototype.includes`) -/

/-- Does the character list start with the pattern `pat`? -/
def startsWithList : List Char → List Char → Bool
  | _, [] => true
  | [], _ :: _ => false
  | c :: cs, d :: ds => c == d && startsWithList cs ds

/-- Does the character list contain `pat` as a contiguous sublist? -/
def includesList : List Char → List Char → Bool
  | [], pat => pat.isEmpty
  | c :: rest, pat => startsWithList (c :: rest) pat || includesList rest pat

/-- JS `s.includes(pat)`: substring membership. -/
def strIncludes (s pat : String) : Bool :=
  includesList s.toList pat.toList

/-! ### The claim-record data model -/

/-- The `properties` object of one GeoJSON claim feature, restricted to
the fields `updateFromData` reads.  The status is a free-text label
that may be absent (`props.status || ''` then maps absence to `""`);
the two numeric fields may hold arbitrary JS values. -/
structure ClaimProps where
  status : Option String
  claimant_families : JSVal
  area_hectares : JSVal
deriving DecidableEq, Repr

/-- Lower-casing of a string, character by character (ASCII).  JS
`toLowerCase` agrees with this on the ASCII labels this system uses. -/
def toLowerStr (s : String) : String :=
  ⟨s.data.map Char.toLower⟩

/-- The lower-cased status label: `(props.status || '').toLowerCase()`
(dashboard.js line 40). -/
def statusLower (st : Option String) : String :=
  toLowerStr (st.getD "")

/-- The five classification outcomes: the four visible buckets plus
falling through the whole `if`/`else if` chain. -/
inductive Bucket where
  | approved | pending | review | rejected | unclassified
deriving DecidableEq, Repr

/-- The classification `if`/`else if` chain of dashboard.js lines 47-50:
substring tests in the fixed order approved, pending, review, reject;
the first match decides; no match leaves the record unclassified. -/
def classify (status : String) : Bucket :=
  if strIncludes status "approved" then .approved
  else if strIncludes status "pending" then .pending
  else if strIncludes status "review" then .review
  else if strIncludes status "reject" then .rejected
  else .unclassified

/-- The four visible counters (dashboard.js line 34). -/
structure Counts where
  approved : ℕ
  pending : ℕ
  review : ℕ
  rejected : ℕ
deriving DecidableEq, Repr

/-- Increment the counter of the record's bucket; an unclassified
record increments nothing. -/
def bump (c : Counts) : Bucket → Counts
  | .approved => { c with approved := c.approved + 1 }
  | .pending => { c with pending := c.pending + 1 }
  | .review => { c with review := c.review + 1 }
  | .rejected => { c with rejected := c.rejected + 1 }
  | .unclassified => c

/-- The loop state of `updateFromData`: the counters plus the two
accumulators (which JS `+=` can silently turn into strings). -/
structure AggState where
  counts : Counts
  totalFamilies : JSVal
  totalArea : JSVal
deriving DecidableEq, Repr

/-- One iteration of the `features.forEach` body
(dashboard.js lines 38-51). -/
def step (acc : AggState) (f : ClaimProps) : AggState :=
  { counts := bump acc.counts (classify (statusLower f.status))
    totalFamilies := jsAdd acc.totalFamilies (orZero f.claimant_families)
    totalArea := jsAdd acc.totalArea (orZero f.area_hectares) }

/-- The loop state before the first iteration (dashboard.js lines 34-36). -/
def initAgg : AggState :=
  { counts := ⟨0, 0, 0, 0⟩, totalFamilies := .num 0, totalArea := .num 0 }

/-- The statistics derived from one batch: the loop result plus the
batch size (`features.length`, used for the coverage line and as the
total feature count). -/
structure Stats where
  counts : Counts
  totalFamilies : JSVal
  totalArea : JSVal
  totalFeatures : ℕ
deriving DecidableEq, Repr

/-- The aggregation core of `Dashboard.updateFromData`
(dashboard.js lines 33-58): a left fold of the forEach body over the
batch, paired with the batch length. -/
def updateFromData (features : List ClaimProps) : Stats :=
  let r := features.foldl step initAgg
  { counts := r.counts
    totalFamilies := r.totalFamilies
    totalArea := r.totalArea
    totalFeatures := features.length }

/-- Whether `updateFromData` throws: its final `console.log`
(dashboard.js line 57) calls `totalArea.toFixed(1)`, which throws a
TypeError whenever the accumulator is no longer a number. -/
def updateFromDataThrows (features : List ClaimProps) : Bool :=
  toFixedThrows (updateFromData features).totalArea

/-- Sum of the four visible counters. -/
def countsSum (c : Counts) : ℕ :=
  c.approved + c.pending + c.review + c.rejected

/-- Number of records of the batch that fall through the whole
classification chain. -/
def unclassifiedCount (features : List ClaimProps) : ℕ :=
  features.countP (fun f => classify (statusLower f.status) == Bucket.unclassified)

/-! ### The dashboard adapter and the application loader -/

/-- The hard-coded fallback counters of the dashboard
(dashboard.js lines 8-13). -/
def defaultCounts : Counts :=
  ⟨234, 156, 43, 12⟩

/-- The effect of `FRAAtlasApp.loadMultiStateData` (app.js lines 105-118)
on the displayed counters: the dashboard update runs only when the
loaded batch is non-empty (`if (this.loadedData.length > 0)`), so an
empty batch leaves the displayed counters untouched. -/
def loadMultiStateData (loadedData : List ClaimProps) (displayed : Counts) : Counts :=
  if loadedData.length > 0 then (updateFromData loadedData).counts else displayed

/-! ### The reporter (app.js) -/

/-- The object assembled by `FRAAtlasApp.generateReportData`
(app.js lines 153-166): the four counters read back from the DOM, their
sum as `totalClaims`, and three randomly generated alert figures. -/
structure ReportData where
  totalClaims : ℕ
  approved : ℕ
  pending : ℕ
  review : ℕ
  rejected : ℕ
  deforestationAlerts : ℤ
  highRiskAreas : ℤ
  ndviViolations : ℤ
deriving DecidableEq, Repr

/-- `FRAAtlasApp.generateReportData` (app.js lines 153-166), with the
four DOM-read counter values and the three `Math.random()` draws as
explicit inputs.  `Math.floor(Math.random() * 8) + 3` becomes
`⌊r * 8⌋ + 3`, and likewise for the other two figures. -/
def generateReportData (a p r j : ℕ) (r1 r2 r3 : ℚ) : ReportData :=
  { totalClaims := a + p + r + j
    approved := a
    pending := p
    review := r
    rejected := j
    deforestationAlerts := ⌊r1 * 8⌋ + 3
    highRiskAreas := ⌊r2 * 5⌋ + 2
    ndviViolations := ⌊r3 * 12⌋ + 5 }

/-- The result of a JS division: a finite number, a signed infinity
(division of a non-zero number by 0), or NaN (0/0). -/
inductive JSNum where
  | fin (q : ℚ) : JSNum
  | posInf : JSNum
  | negInf : JSNum
  | nan : JSNum
deriving DecidableEq, Repr

/-- JS `/` on numbers: `x / 0` is `Infinity` for positive `x`,
`-Infinity` for negative `x`, and `NaN` for `0 / 0`. -/
def jsDiv (a b : ℚ) : JSNum :=
  if b = 0 then
    (if 0 < a then .posInf else if a < 0 then .negInf else .nan)
  else .fin (a / b)

/-- `(q).toFixed(1)` for a finite nonnegative number: one decimal
place, rounding half up.  (JS computes this on the binary double; the
difference is invisible to every claim, none of which constrains the
rendered decimal of a finite average.) -/
def toFixed1Rat (q : ℚ) : String :=
  let m : ℤ := ⌊q * 10 + 1 / 2⌋
  toString (m / 10) ++ "." ++ toString (m % 10)

/-- `Number.prototype.toFixed(1)` on a JS division result:
`Infinity.toFixed(1)` is the string `"Infinity"`, `NaN.toFixed(1)` is
`"NaN"`. -/
def jsNumToFixed1 : JSNum → String
  | .fin q => toFixed1Rat q
  | .posInf => "Infinity"
  | .negInf => "-Infinity"
  | .nan => "NaN"

/-- `FRAAtlasApp.createReportContent` (app.js lines 171-213): the
template literal, with the clock reading `new Date().toLocaleString()`
as the explicit input `now`.  Each `${...}` interpolation becomes a
`toString`/`toFixed` conversion; the literal text between
interpolations is kept verbatim (some literal chunks are written as an
append of two pieces, which denotes the same string). -/
def createReportContent (d : ReportData) (now : String) : String :=
  "\nFRA ATLAS DECISION SUPPORT SYSTEM - COMPREHENSIVE REPORT\nGenerated on: "
    ++ now
    ++ "\n\n=== EXECUTIVE SUMMARY ===\nTotal FRA Claims Monitored: "
    ++ toString d.totalClaims
    ++ "\nStates Covered: Odisha, Madhya Pradesh, Tripura, Telangana\nMonitoring Period: January 2025 - September 2025\n\n=== CLAIM STATUS DISTRIBUTION ===\n• "
    ++ "Approved Claims: "
    ++ toString d.approved
    ++ "\n• Pending Review: "
    ++ toString d.pending
    ++ "  \n• Under Review: "
    ++ toString d.review
    ++ "\n• Rejected Claims: "
    ++ toString d.rejected
    ++ "\n\n=== ENVIRONMENTAL ALERTS ===\n• Deforestation Detected: "
    ++ toString d.deforestationAlerts
    ++ " locations\n• High-risk Areas: "
    ++ toString d.highRiskAreas
    ++ "\n• NDVI Threshold Violations: "
    ++ toString d.ndviViolations
    ++ "\n\n=== COMMUNITY IMPACT ===\n• Total Families Protected: 8,542\n• Forest Area Secured: 24,156 hectares\n• "
    ++ "Average Claim Size: "
    ++ jsNumToFixed1 (jsDiv 24156 (d.totalClaims : ℚ))
    ++ " hectares"
    ++ "\n\n=== TECHNICAL SPECIFICATIONS ===\n• Satellite Data Source: Sentinel-2 (10m resolution)\n• NDVI Calculation: Band 8 (NIR) and Band 4 (Red)\n• Deforestation Threshold: NDVI < 0.3\n• Update Frequency: Bi-weekly\n\n=== RECOMMENDATIONS ===\n1. Prioritize review of "
    ++ toString d.pending
    ++ " pending claims\n2. Investigate "
    ++ toString d.deforestationAlerts
    ++ " deforestation alerts\n3. Deploy ground verification teams to high-risk areas\n4. Strengthen community-based monitoring programs\n\nReport generated by FRA Atlas DSS v1.0\nFor SIH 2025 - Problem Statement SIH12508\nTeam: Green Guardians\n        "

/-! ### Spec-side restatement of the classification order (for C2) -/

/-- Modelled from the spec's wording of the classification algorithm:
walk an ordered list of (pattern, bucket) pairs and return the bucket
of the first pattern that occurs in the status; no match is
unclassified.  Declared separately from `classify` so the code's
`if`/`else if` chain can be compared against it. -/
def firstMatch (status : String) : List (String × Bucket) → Bucket
  | [] => .unclassified
  | (pat, b) :: rest => if strIncludes status pat then b else firstMatch status rest

/-- The spec's fixed pattern order:
approved, pending, review, reject. -/
def orderedPatterns : List (String × Bucket) :=
  [("approved", .approved), ("pending", .pending),
   ("review", .review), ("reject", .rejected)]

/-! ### Helper lemmas -/

theorem orZero_num (q : ℚ) : orZero (.num q) = .num q := by
  by_cases h : q = 0 <;> simp [orZero, JSVal.truthy, h]

theorem countsSum_bump (c : Counts) (κ : Bucket) :
    countsSum (bump c κ) = countsSum c + (if κ = .unclassified then 0 else 1) := by
  cases κ <;> simp [bump, countsSum] <;> omega

theorem foldl_counts (B : List ClaimProps) : ∀ acc : AggState,
    countsSum ((B.foldl step acc).counts) + unclassifiedCount B =
      countsSum acc.counts + B.length := by
  induction B with
  | nil => intro acc; simp [unclassifiedCount]
  | cons f rest ih =>
      intro acc
      have h := ih (step acc f)
      have hstep : countsSum (step acc f).counts =
          countsSum acc.counts +
            (if classify (statusLower f.status) = .unclassified then 0 else 1) := by
        simp [step, countsSum_bump]
      have hcount : unclassifiedCount (f :: rest) = unclassifiedCount rest +
          (if classify (statusLower f.status) = .unclassified then 1 else 0) := by
        simp [unclassifiedCount, List.countP_cons]
      simp only [List.foldl_cons, List.length_cons]
      rw [hcount]
      by_cases hu : classify (statusLower f.status) = Bucket.unclassified <;>
        simp [hu] at hstep ⊢ <;> omega

/-! ### The claims -/

/-- Claim C1: for every batch, the four category counters of the
aggregated statistics together with the number of unclassified records
add up to the batch length, so every record lands in at most one
visible bucket and unmatched records are counted only in
`totalFeatures`. -/
theorem counts_partition (B : List ClaimProps) :
    countsSum (updateFromData B).counts + unclassifiedCount B =
      (updateFromData B).totalFeatures ∧
    (updateFromData B).totalFeatures = B.length := by
  have h := foldl_counts B initAgg
  exact ⟨by simpa [updateFromData, initAgg, countsSum] using h, rfl⟩

/-- Claim C2: classification lower-cases the status and equals the
first match over the ordered pattern list approved, pending, review,
reject; in particular a status that lower-cases to "pending review" is
classified Pending and never UnderReview. -/
theorem classify_order (st : Option String) :
    classify (statusLower st) = firstMatch (statusLower st) orderedPatterns ∧
    (statusLower st = "pending review" →
      classify (statusLower st) = Bucket.pending ∧
      classify (statusLower st) ≠ Bucket.review) := by
  refine ⟨by simp [classify, firstMatch, orderedPatterns], fun h => ?_⟩
  rw [h]
  exact ⟨by decide, by decide⟩

/-- Witness for C2 at the concrete status "Pending Review". -/
theorem classify_order_witness :
    statusLower (some "Pending Review") = "pending review" ∧
    classify (statusLower (some "Pending Review")) = Bucket.pending := by
  refine ⟨by decide, ?_⟩
  exact ((classify_order (some "Pending Review")).2 (by decide)).1

/-- Claim C8: aggregating the empty batch yields the all-zero
statistics: all four counters 0, both totals 0, and zero features. -/
theorem aggregate_empty :
    updateFromData [] = ⟨⟨0, 0, 0, 0⟩, .num 0, .num 0, 0⟩ := rfl

/-- Claim C9: the four-record scenario batch aggregates to one record
per bucket, 17 families, and exactly 4.5 hectares, with no rounding in
the accumulators. -/
theorem aggregate_scenario4 :
    updateFromData
      [⟨some "Approved", .num 10, .num 1.5⟩,
       ⟨some "Pending Review", .num 5, .num 2.25⟩,
       ⟨some "Under Review", .num 0, .num 0⟩,
       ⟨some "Rejected", .num 2, .num 0.75⟩] =
      ⟨⟨1, 1, 1, 1⟩, .num 17, .num 4.5, 4⟩ := by
  have h1 : classify (statusLower (some "Approved")) = Bucket.approved := by decide
  have h2 : classify (statusLower (some "Pending Review")) = Bucket.pending := by decide
  have h3 : classify (statusLower (some "Under Review")) = Bucket.review := by decide
  have h4 : classify (statusLower (some "Rejected")) = Bucket.rejected := by decide
  simp only [updateFromData, List.foldl_cons, List.foldl_nil, step, initAgg, h1, h2, h3, h4,
    orZero_num, jsAdd, bump, List.length_cons, List.length_nil]
  norm_num

/-- Claim C10: loading an empty batch leaves the displayed counters
untouched: the dashboard update is guarded by a positive-length check,
so the previous (or default) values stay in place. -/
theorem load_empty_keeps_counters (displayed : Counts) :
    loadMultiStateData [] displayed = displayed := by
  simp [loadMultiStateData]

/-! ### C3: malformed numeric fields -/

/-- Field values which `v || 0` really maps to a number: numbers,
missing values, and falsy strings (the empty string).  A truthy
non-numeric value is NOT in this class. -/
def coercible : JSVal → Bool
  | .num _ => true
  | .undef => true
  | .str s => s == ""

/-- The numeric value `v || 0` yields on a coercible field. -/
def coercedVal : JSVal → ℚ
  | .num q => q
  | _ => 0

theorem orZero_coercible (v : JSVal) (h : coercible v = true) :
    orZero v = .num (coercedVal v) := by
  cases v with
  | undef => simp [orZero, JSVal.truthy, coercedVal]
  | num q => simpa [coercedVal] using orZero_num q
  | str s =>
      simp [coercible] at h
      subst h
      simp [orZero, JSVal.truthy, coercedVal]

theorem foldl_totals (B : List ClaimProps)
    (hB : ∀ f ∈ B, coercible f.claimant_families = true ∧ coercible f.area_hectares = true) :
    ∀ (acc : AggState) (qf qa : ℚ), acc.totalFamilies = .num qf → acc.totalArea = .num qa →
      (B.foldl step acc).totalFamilies =
        .num (qf + (B.map fun f => coercedVal f.claimant_families).sum) ∧
      (B.foldl step acc).totalArea =
        .num (qa + (B.map fun f => coercedVal f.area_hectares).sum) := by
  induction B with
  | nil => intro acc qf qa hf ha; simp [hf, ha]
  | cons f rest ih =>
      intro acc qf qa hf ha
      have hfc := (hB f (by simp)).1
      have hac := (hB f (by simp)).2
      have hrest : ∀ g ∈ rest,
          coercible g.claimant_families = true ∧ coercible g.area_hectares = true :=
        fun g hg => hB g (by simp [hg])
      have hstepf : (step acc f).totalFamilies = .num (qf + coercedVal f.claimant_families) := by
        simp [step, hf, orZero_coercible _ hfc, jsAdd]
      have hstepa : (step acc f).totalArea = .num (qa + coercedVal f.area_hectares) := by
        simp [step, ha, orZero_coercible _ hac, jsAdd]
      have h := ih hrest (step acc f) _ _ hstepf hstepa
      simpa [add_assoc] using h

/-- Claim C3, counterexample: a record carrying the truthy non-numeric
strings "x" and "abc" in its numeric fields is not coerced to 0 — JS
`+=` concatenates, the family total becomes the string "0x" instead of
the number 0, and the trailing `totalArea.toFixed(1)` of the update's
log line throws a TypeError. -/
theorem aggregate_malformed_counterexample :
    (updateFromData [⟨none, .str "x", .str "abc"⟩]).totalFamilies ≠ .num 0 ∧
    (updateFromData [⟨none, .str "x", .str "abc"⟩]).totalFamilies = .str "0x" ∧
    updateFromDataThrows [⟨none, .str "x", .str "abc"⟩] = true :=
  ⟨by decide, by decide, by decide⟩

/-- Claim C3 as amended: aggregation never raises and sums with 0 in
place of the malformed fields, provided each numeric field is a number,
missing, or falsy (here: the empty string) — i.e. anything `|| 0`
actually coerces.  (A truthy non-numeric field is instead concatenated
as a string and makes the final `toFixed` presentation call throw, per
the counterexample.) -/
theorem aggregate_coercible_defaults (B : List ClaimProps)
    (hB : ∀ f ∈ B, coercible f.claimant_families = true ∧ coercible f.area_hectares = true) :
    (updateFromData B).totalFamilies =
      .num ((B.map fun f => coercedVal f.claimant_families).sum) ∧
    (updateFromData B).totalArea =
      .num ((B.map fun f => coercedVal f.area_hectares).sum) ∧
    updateFromDataThrows B = false := by
  have h := foldl_totals B hB initAgg 0 0 rfl rfl
  have hf : (updateFromData B).totalFamilies =
      .num ((B.map fun f => coercedVal f.claimant_families).sum) := by
    simpa [updateFromData] using h.1
  have ha : (updateFromData B).totalArea =
      .num ((B.map fun f => coercedVal f.area_hectares).sum) := by
    simpa [updateFromData] using h.2
  refine ⟨hf, ha, ?_⟩
  simp [updateFromDataThrows, ha, toFixedThrows]

/-- Witness for the amended C3: a record with a missing family count
and an empty-string area. -/
theorem aggregate_coercible_defaults_witness :
    (∀ f ∈ ([⟨some "Approved", .undef, .str ""⟩] : List ClaimProps),
        coercible f.claimant_families = true ∧ coercible f.area_hectares = true) ∧
    ((updateFromData [(⟨some "Approved", .undef, .str ""⟩ : ClaimProps)]).totalFamilies =
        .num (([(⟨some "Approved", .undef, .str ""⟩ : ClaimProps)].map
          fun f => coercedVal f.claimant_families).sum) ∧
      (updateFromData [(⟨some "Approved", .undef, .str ""⟩ : ClaimProps)]).totalArea =
        .num (([(⟨some "Approved", .undef, .str ""⟩ : ClaimProps)].map
          fun f => coercedVal f.area_hectares).sum) ∧
      updateFromDataThrows [(⟨some "Approved", .undef, .str ""⟩ : ClaimProps)] = false) :=
  ⟨by decide, aggregate_coercible_defaults _ (by decide)⟩

/-! ### Substring lemmas for the report text -/

theorem strToList_append (a b : String) : (a ++ b).toList = a.toList ++ b.toList := by
  simp [String.toList]

theorem startsWithList_append (p b : List Char) : startsWithList (p ++ b) p = true := by
  induction p with
  | nil => cases b <;> simp [startsWithList]
  | cons c cs ih => simp [startsWithList, ih]

theorem startsWithList_nil (s : List Char) : startsWithList s [] = true := by
  cases s <;> rfl

theorem includesList_prefix (p b : List Char) : includesList (p ++ b) p = true := by
  cases p with
  | nil => cases b <;> simp [includesList, startsWithList_nil]
  | cons c cs =>
      have h := startsWithList_append (c :: cs) b
      simp only [List.cons_append] at h
      simp [includesList, h]

theorem includesList_append_left (a s p : List Char) (h : includesList s p = true) :
    includesList (a ++ s) p = true := by
  induction a with
  | nil => simpa using h
  | cons c cs ih =>
      simp only [List.cons_append, includesList, Bool.or_eq_true]
      exact Or.inr ih

theorem strIncludes_append_left (x s p : String) (h : strIncludes s p = true) :
    strIncludes (x ++ s) p = true := by
  unfold strIncludes at h ⊢
  rw [strToList_append]
  exact includesList_append_left _ _ _ h

theorem strIncludes_prefix (p y : String) : strIncludes (p ++ y) p = true := by
  unfold strIncludes
  rw [strToList_append]
  exact includesList_prefix _ _

/-! ### The reporter claims -/

/-- Claim C5: the report built from `generateReportData` output contains
the literal substring "Approved Claims: " followed by the approved
count, and its rendered total equals the sum of the four rendered
category counts. -/
theorem report_approved_line (a p r j : ℕ) (r1 r2 r3 : ℚ) (now : String) :
    strIncludes (createReportContent (generateReportData a p r j r1 r2 r3) now)
      ("Approved Claims: " ++ toString (generateReportData a p r j r1 r2 r3).approved) = true ∧
    (generateReportData a p r j r1 r2 r3).totalClaims =
      (generateReportData a p r j r1 r2 r3).approved +
      (generateReportData a p r j r1 r2 r3).pending +
      (generateReportData a p r j r1 r2 r3).review +
      (generateReportData a p r j r1 r2 r3).rejected := by
  constructor
  · simp only [createReportContent, String.append_assoc]
    apply strIncludes_append_left
    apply strIncludes_append_left
    apply strIncludes_append_left
    apply strIncludes_append_left
    apply strIncludes_append_left
    rw [← String.append_assoc]
    exact strIncludes_prefix _ _
  · simp [generateReportData]

set_option maxRecDepth 40000 in
/-- Claim C4: with zero total claims the report builder does not guard
the division — JS `24156 / 0` is `Infinity`, `toFixed` renders it as
the string "Infinity", and the report carries "Average Claim Size:
Infinity hectares" instead of a defined fallback such as "N/A". -/
theorem report_zero_claims_eval :
    jsNumToFixed1 (jsDiv 24156 (((⟨0, 0, 0, 0, 0, 3, 2, 5⟩ : ReportData)).totalClaims : ℚ)) =
      "Infinity" ∧
    strIncludes (createReportContent ⟨0, 0, 0, 0, 0, 3, 2, 5⟩ "2025-10-11")
      "Average Claim Size: Infinity hectares" = true :=
  ⟨by decide, by decide⟩

/-- Claim C6, counterexample: the report interpolates the clock reading
(`new Date().toLocaleString()`), so two builds from identical
statistics and identical alert figures, run one second apart, produce
different documents. -/
theorem report_determinism_counterexample :
    createReportContent ⟨0, 0, 0, 0, 0, 3, 2, 5⟩ "10/11/2025, 9:00:00 AM" ≠
      createReportContent ⟨0, 0, 0, 0, 0, 3, 2, 5⟩ "10/11/2025, 9:00:01 AM" := by
  decide

/-- Claim C6 as amended: report building is deterministic once the
clock reading is fixed along with the statistics and alert figures —
the document is a pure function of those three inputs. -/
theorem report_deterministic (d d' : ReportData) (now now' : String)
    (hd : d = d') (hn : now = now') :
    createReportContent d now = createReportContent d' now' := by
  rw [hd, hn]

/-- Witness for the amended C6 at concrete inputs. -/
theorem report_deterministic_witness :
    (⟨0, 0, 0, 0, 0, 3, 2, 5⟩ : ReportData) = ⟨0, 0, 0, 0, 0, 3, 2, 5⟩ ∧
    createReportContent ⟨0, 0, 0, 0, 0, 3, 2, 5⟩ "10/11/2025, 9:00:00 AM" =
      createReportContent ⟨0, 0, 0, 0, 0, 3, 2, 5⟩ "10/11/2025, 9:00:00 AM" :=
  ⟨rfl, report_deterministic _ _ _ _ rfl rfl⟩

theorem floor_mul_lt (r m : ℚ) (z : ℤ) (h0 : 0 ≤ r) (h1 : r < 1) (hm : 0 < m)
    (hz : (z : ℚ) = m) : 0 ≤ ⌊r * m⌋ ∧ ⌊r * m⌋ < z := by
  constructor
  · exact Int.floor_nonneg.mpr (mul_nonneg h0 (le_of_lt hm))
  · rw [Int.floor_lt, hz]
    nlinarith

/-- Claim C7: for random draws in [0,1), the three generated alert
figures are integers within their fixed ranges: deforestation in
[3,10], high-risk areas in [2,6], NDVI violations in [5,16]. -/
theorem alert_figures_ranges (a p r j : ℕ) (r1 r2 r3 : ℚ)
    (h1 : 0 ≤ r1) (h1' : r1 < 1) (h2 : 0 ≤ r2) (h2' : r2 < 1)
    (h3 : 0 ≤ r3) (h3' : r3 < 1) :
    (3 ≤ (generateReportData a p r j r1 r2 r3).deforestationAlerts ∧
      (generateReportData a p r j r1 r2 r3).deforestationAlerts ≤ 10) ∧
    (2 ≤ (generateReportData a p r j r1 r2 r3).highRiskAreas ∧
      (generateReportData a p r j r1 r2 r3).highRiskAreas ≤ 6) ∧
    (5 ≤ (generateReportData a p r j r1 r2 r3).ndviViolations ∧
      (generateReportData a p r j r1 r2 r3).ndviViolations ≤ 16) := by
  have b1 := floor_mul_lt r1 8 8 h1 h1' (by norm_num) (by norm_num)
  have b2 := floor_mul_lt r2 5 5 h2 h2' (by norm_num) (by norm_num)
  have b3 := floor_mul_lt r3 12 12 h3 h3' (by norm_num) (by norm_num)
  simp only [generateReportData]
  omega

/-- Witness for C7 at the random draw 0 for all three figures. -/
theorem alert_figures_ranges_witness :
    ((0 : ℚ) ≤ 0 ∧ (0 : ℚ) < 1) ∧
    ((3 ≤ (generateReportData 0 0 0 0 0 0 0).deforestationAlerts ∧
      (generateReportData 0 0 0 0 0 0 0).deforestationAlerts ≤ 10) ∧
    (2 ≤ (generateReportData 0 0 0 0 0 0 0).highRiskAreas ∧
      (generateReportData 0 0 0 0 0 0 0).highRiskAreas ≤ 6) ∧
    (5 ≤ (generateReportData 0 0 0 0 0 0 0).ndviViolations ∧
      (generateReportData 0 0 0 0 0 0 0).ndviViolations ≤ 16)) :=
  ⟨⟨le_rfl, by norm_num⟩,
    alert_figures_ranges 0 0 0 0 0 0 0 le_rfl (by norm_num) le_rfl (by norm_num)
      le_rfl (by norm_num)⟩

end FraAtlas
